import Mathlib

/-!
Shallow embedding of `src/backend/agent-python/agent.py`: a single-file
FastAPI service exposing `POST /message`, `POST /fact/set` and
`GET /fact/get/{key}` for one agent instance.  Decoded Python/JSON values
are modelled by `PyVal`, the Redis list store by a function from keys to
lists of decoded records, and the single outbound HTTP exchange that the
fact endpoints perform by an oracle value `BackendResult`.
-/

/-- Python values arising from decoded JSON bodies (`json.loads`) and the
literals used in `agent.py`.  JSON `null` decodes to Python `None`, so both
are `PyVal.none`. -/
inductive PyVal : Type where
  | none : PyVal
  | bool : Bool → PyVal
  | int : Int → PyVal
  | str : String → PyVal
  | list : List PyVal → PyVal
  | dict : List (String × PyVal) → PyVal

/-- Python truthiness, as tested by `if not x`: the falsy values are
`None`, `False`, `0`, `""`, `[]` and an empty dict. -/
def truthy : PyVal → Bool
  | PyVal.none => false
  | PyVal.bool b => b
  | PyVal.int n => n != 0
  | PyVal.str s => s != ""
  | PyVal.list xs => !xs.isEmpty
  | PyVal.dict kvs => !kvs.isEmpty

/-- Python `x is None` on decoded JSON values. -/
def PyVal.isNone : PyVal → Bool
  | PyVal.none => true
  | _ => false

/-- Python `d.get(key, default)` on a decoded JSON object (JSON objects
cannot carry duplicate keys, so first-match lookup is exact). -/
def pyDictGet : List (String × PyVal) → String → PyVal → PyVal
  | [], _, d => d
  | (k, v) :: kvs, key, d => if k = key then v else pyDictGet kvs key d

/-- Python `type(x).__name__`, as it appears in `AttributeError` messages. -/
def pyTypeName : PyVal → String
  | PyVal.none => "NoneType"
  | PyVal.bool _ => "bool"
  | PyVal.int _ => "int"
  | PyVal.str _ => "str"
  | PyVal.list _ => "list"
  | PyVal.dict _ => "dict"

mutual

/-- Python `repr`, as used by `str()` on containers (string escaping inside
reprs is not modelled; every value the claims exercise is rendered through
the string case of `pyStr`, which agrees with Python exactly). -/
def pyRepr : PyVal → String
  | PyVal.none => "None"
  | PyVal.bool b => if b then "True" else "False"
  | PyVal.int n => toString n
  | PyVal.str s => "\x27" ++ s ++ "\x27"
  | PyVal.list xs => "[" ++ pyReprL xs ++ "]"
  | PyVal.dict kvs => "\x7b" ++ pyReprD kvs ++ "\x7d"

/-- Comma-joined reprs of the elements of a Python list. -/
def pyReprL : List PyVal → String
  | [] => ""
  | [x] => pyRepr x
  | x :: xs => pyRepr x ++ ", " ++ pyReprL xs

/-- Comma-joined `key: value` reprs of the entries of a Python dict. -/
def pyReprD : List (String × PyVal) → String
  | [] => ""
  | [(k, v)] => "\x27" ++ k ++ "\x27: " ++ pyRepr v
  | (k, v) :: kvs => "\x27" ++ k ++ "\x27: " ++ pyRepr v ++ ", " ++ pyReprD kvs

end

/-- Python `str()`, as interpolated by the f-strings in `agent.py`. -/
def pyStr : PyVal → String
  | PyVal.str s => s
  | v => pyRepr v

mutual

/-- Structural size of a `PyVal`, used to show a record can never be an
element of its own `memory` list. -/
def psize : PyVal → Nat
  | PyVal.none => 1
  | PyVal.bool _ => 1
  | PyVal.int _ => 1
  | PyVal.str _ => 1
  | PyVal.list xs => 1 + psizeL xs
  | PyVal.dict kvs => 1 + psizeD kvs

/-- Size of a list of `PyVal`. -/
def psizeL : List PyVal → Nat
  | [] => 0
  | x :: xs => psize x + psizeL xs + 1

/-- Size of the entries of a Python dict. -/
def psizeD : List (String × PyVal) → Nat
  | [] => 0
  | (_, v) :: kvs => psize v + psizeD kvs + 1

end

/-- The Redis list store: each key holds a list of decoded records,
most-recent-first.  `json.dumps` followed by `json.loads` round-trips the
records `agent.py` writes, so records are stored directly. -/
def Store : Type := String → List PyVal

/-- Redis `LPUSH key v`: prepend `v` to the list at `key`. -/
def lpush (st : Store) (key : String) (v : PyVal) : Store :=
  fun k => if k = key then v :: st k else st k

/-- Redis `LRANGE key 0 9`: the first ten elements (fewer when the list is
shorter), as read by `message_endpoint`. -/
def lrange10 (st : Store) (key : String) : List PyVal :=
  (st key).take 10

/-- `os.environ.get('AGENT_ID', 'unknown')`:
the default applies only when the variable is absent. -/
def agentIdOf : Option String → String
  | Option.none => "unknown"
  | Option.some s => s

/-- The `AGENT_CONFIG` initialiser: the variable is decoded only when it is
set and non-empty (Python string truthiness), otherwise the configuration
is the empty dict.  `decode` abstracts `json.loads` after `base64.b64decode`. -/
def agentConfigOf (v : Option String) (decode : String → PyVal) : PyVal :=
  match v with
  | Option.none => PyVal.dict []
  | Option.some s => if s = "" then PyVal.dict [] else decode s

/-- `AGENT_CONFIG.get('systemPrompt', '')`.  A non-dict `AGENT_CONFIG`
raises `AttributeError` at import time, so a running process always has a
dict here; the catch-all case is unreachable in a live service. -/
def agent_context (cfg : PyVal) : PyVal :=
  match cfg with
  | PyVal.dict kvs => pyDictGet kvs "systemPrompt" (PyVal.str "")
  | _ => PyVal.str ""

/-- `AGENT_CONFIG.get('tools', [])` (same dict remark as `agent_context`). -/
def agent_tools (cfg : PyVal) : PyVal :=
  match cfg with
  | PyVal.dict kvs => pyDictGet kvs "tools" (PyVal.list [])
  | _ => PyVal.list []

/-- `t.get('name', '')` inside the list comprehension building the response
content.  In Python a non-dict tool or a non-string name would raise before
any response is produced; the claims exercise dicts with string names,
where this agrees with the source exactly. -/
def tool_name (t : PyVal) : String :=
  match t with
  | PyVal.dict kvs => pyStr (pyDictGet kvs "name" (PyVal.str ""))
  | _ => ""

/-- The list comprehension `[t.get('name', '') for t in agent_tools]`. -/
def tool_names (tools : PyVal) : List String :=
  match tools with
  | PyVal.list ts => ts.map tool_name
  | _ => []

/-- The process-wide state fixed at startup: `AGENT_ID` and the decoded
`AGENT_CONFIG`. -/
structure AgentEnv : Type where
  agentId : String
  config : PyVal

/-- `POST /message`.  `data` is the decoded JSON body; `t1` and `t2` are
the two `int(time.time())` reads in program order; the result is the JSON
response returned to the caller together with the store after both `LPUSH`
calls. -/
def message_endpoint (env : AgentEnv) (data : List (String × PyVal))
    (t1 t2 : Int) (st : Store) : PyVal × Store :=
  let message := pyDictGet data "message" PyVal.none
  if truthy message = false then
    (PyVal.dict [("error", PyVal.str "Missing message")], st)
  else
    let key := "agent:" ++ env.agentId ++ ":messages"
    let userRec := PyVal.dict
      [("role", PyVal.str "user"), ("content", message), ("timestamp", PyVal.int t1)]
    let st1 := lpush st key userRec
    let history := lrange10 st1 key
    let content := "Echo: " ++ pyStr message ++ "\nContext: "
      ++ pyStr (agent_context env.config) ++ "\nTools: "
      ++ String.intercalate ", " (tool_names (agent_tools env.config))
    let response := PyVal.dict
      [("role", PyVal.str "agent"), ("content", PyVal.str content),
       ("timestamp", PyVal.int t2), ("memory", PyVal.list history)]
    (response, lpush st1 key response)

/-- Outcome of the single outbound HTTP exchange a fact endpoint performs:
`ok body` is a 2xx response whose JSON body decodes to `body`; `exn msg` is
any exception raised inside the `try` block (connection failure,
`raise_for_status` on a non-2xx status, JSON decode failure), with
`msg = str(e)`. -/
inductive BackendResult : Type where
  | ok : PyVal → BackendResult
  | exn : String → BackendResult

/-- `POST /fact/set`.  Besides the JSON response, the second component
records whether the backend was contacted (`requests.post` issued). -/
def set_fact (data : List (String × PyVal)) (backend : BackendResult) :
    PyVal × Bool :=
  let key := pyDictGet data "key" PyVal.none
  let value := pyDictGet data "value" PyVal.none
  if truthy key = false ∨ value.isNone = true then
    (PyVal.dict [("error", PyVal.str "Missing key or value")], false)
  else
    match backend with
    | BackendResult.ok _ => (PyVal.dict [("status", PyVal.str "ok")], true)
    | BackendResult.exn m => (PyVal.dict [("error", PyVal.str m)], true)

/-- `GET /fact/get/{key}`.  The path parameter appears only in the request
URL; the response depends on the backend exchange alone.  A 2xx body that
is not a JSON object makes `data.get` raise `AttributeError`, which the
catch-all turns into an in-band error. -/
def get_fact (key : String) (backend : BackendResult) : PyVal :=
  match key, backend with
  | _, BackendResult.exn m => PyVal.dict [("error", PyVal.str m)]
  | _, BackendResult.ok (PyVal.dict kvs) =>
      PyVal.dict [("value", pyDictGet kvs "value" PyVal.none)]
  | _, BackendResult.ok b =>
      PyVal.dict [("error", PyVal.str
        ("\x27" ++ pyTypeName b ++ "\x27 object has no attribute \x27get\x27"))]

/-- The `timestamp` field of a stored record (observation helper). -/
def tsOf : PyVal → PyVal
  | PyVal.dict kvs => pyDictGet kvs "timestamp" PyVal.none
  | _ => PyVal.none

/-- Lookup in a JSON object returns the default when no entry carries the
requested key. -/
theorem pyDictGet_eq_default (kvs : List (String × PyVal)) (k : String) (d : PyVal)
    (h : ∀ p ∈ kvs, p.1 ≠ k) : pyDictGet kvs k d = d := by
  induction kvs with
  | nil => rfl
  | cons p rest ih =>
    obtain ⟨a, b⟩ := p
    have ha : a ≠ k := h (a, b) (List.mem_cons_self _ _)
    rw [pyDictGet, if_neg ha]
    exact ih fun q hq => h q (List.mem_cons_of_mem _ hq)

/-- An element of a list of Python values is strictly smaller than the list. -/
theorem psize_lt_of_mem {x : PyVal} {xs : List PyVal} (h : x ∈ xs) :
    psize x < psizeL xs := by
  induction xs with
  | nil => cases h
  | cons a as ih =>
    rcases List.mem_cons.mp h with h | h
    · subst h
      rw [psizeL]
      omega
    · have := ih h
      rw [psizeL]
      omega

/-- A record carrying a `memory` list can never be an element of that very
list: it would have to be strictly larger than itself. -/
theorem record_not_mem_own_memory (r c ts : PyVal) (h : List PyVal) :
    PyVal.dict [("role", r), ("content", c), ("timestamp", ts), ("memory", PyVal.list h)] ∉ h := by
  intro hmem
  have hlt := psize_lt_of_mem hmem
  rw [psize, psizeD, psizeD, psizeD, psizeD, psizeD, psize] at hlt
  omega

/-- Claim C2: when the `message` field is absent (Python `None`) or the
empty string, `message_endpoint` returns exactly the validation error and
the store is untouched (no `LPUSH` is performed). -/
theorem missing_message_no_mutation (env : AgentEnv) (data : List (String × PyVal))
    (t1 t2 : Int) (st : Store)
    (h : pyDictGet data "message" PyVal.none = PyVal.none ∨
         pyDictGet data "message" PyVal.none = PyVal.str "") :
    message_endpoint env data t1 t2 st
      = (PyVal.dict [("error", PyVal.str "Missing message")], st) := by
  rcases h with h | h <;> simp [message_endpoint, h, truthy]

/-- Witness for C2: a body with no `message` field yields the error and the
empty store unchanged. -/
theorem missing_message_no_mutation_witness :
    message_endpoint ⟨"unknown", PyVal.dict []⟩ [] 0 0 (fun _ => [])
      = (PyVal.dict [("error", PyVal.str "Missing message")], fun _ => []) :=
  missing_message_no_mutation _ _ _ _ _ (Or.inl rfl)

/-- Counterexample to C3 as stated: the key `""` is present (non-missing)
and the value is `0`, yet validation rejects the request and the backend is
never contacted — `not key` tests truthiness, not presence. -/
theorem nonmissing_key_rejected_example :
    set_fact [("key", PyVal.str ""), ("value", PyVal.int 0)] (BackendResult.ok PyVal.none)
      = (PyVal.dict [("error", PyVal.str "Missing key or value")], false) := by
  simp [set_fact, pyDictGet, truthy]

/-- Claim C3 (amended): for every request whose `key` field is truthy,
`set_fact` with value `0`, `false` or `""` passes validation and proceeds
to the backend call, while value `null` or an absent value field yields the
validation error without contacting the backend. -/
theorem set_fact_value_validation (data : List (String × PyVal)) (backend : BackendResult)
    (hk : truthy (pyDictGet data "key" PyVal.none) = true) :
    ((pyDictGet data "value" PyVal.none = PyVal.int 0 ∨
      pyDictGet data "value" PyVal.none = PyVal.bool false ∨
      pyDictGet data "value" PyVal.none = PyVal.str "") →
      (set_fact data backend).2 = true) ∧
    (pyDictGet data "value" PyVal.none = PyVal.none →
      set_fact data backend
        = (PyVal.dict [("error", PyVal.str "Missing key or value")], false)) := by
  constructor
  · intro hv
    rcases hv with h | h | h <;> cases backend <;>
      simp [set_fact, hk, h, PyVal.isNone]
  · intro hv
    simp [set_fact, hk, hv, PyVal.isNone]

/-- Witness for the amended C3: key `"k"` with value `0` reaches the
backend call. -/
theorem set_fact_value_validation_witness :
    (set_fact [("key", PyVal.str "k"), ("value", PyVal.int 0)]
      (BackendResult.ok PyVal.none)).2 = true :=
  (set_fact_value_validation _ _ (by decide)).1 (Or.inl rfl)

/-- Claim C10: a `key` field that is present but falsy (`""`, `0` or
`false`) is rejected with the validation error and the backend is not
contacted. -/
theorem falsy_key_rejected (data : List (String × PyVal)) (backend : BackendResult)
    (h : pyDictGet data "key" PyVal.none = PyVal.str "" ∨
         pyDictGet data "key" PyVal.none = PyVal.int 0 ∨
         pyDictGet data "key" PyVal.none = PyVal.bool false) :
    set_fact data backend
      = (PyVal.dict [("error", PyVal.str "Missing key or value")], false) := by
  rcases h with h | h | h <;> simp [set_fact, h, truthy]

/-- Witness for C10: key `0` is rejected without a backend call. -/
theorem falsy_key_rejected_witness :
    set_fact [("key", PyVal.int 0), ("value", PyVal.int 1)] (BackendResult.ok PyVal.none)
      = (PyVal.dict [("error", PyVal.str "Missing key or value")], false) :=
  falsy_key_rejected _ _ (Or.inr (Or.inl rfl))

/-- Claim C4: after validation passes, `set_fact` and `get_fact` never
raise — both are total — and: on a 2xx exchange `set_fact` returns exactly
the ok status and `get_fact` the backend body's `value` field; on any
exception (network failure or non-2xx) each returns an in-band error
carrying the exception's message, which for `requests` exceptions is
non-empty (hypotheses `hne` and `hne2`). -/
theorem fact_endpoints_report_in_band (data : List (String × PyVal)) (fkey : String)
    (bset bget : BackendResult)
    (hk : truthy (pyDictGet data "key" PyVal.none) = true)
    (hv : (pyDictGet data "value" PyVal.none).isNone = false)
    (hne : ∀ m, bset = BackendResult.exn m → m ≠ "")
    (hne2 : ∀ m, bget = BackendResult.exn m → m ≠ "") :
    (∀ b, bset = BackendResult.ok b →
      set_fact data bset = (PyVal.dict [("status", PyVal.str "ok")], true)) ∧
    (∀ m, bset = BackendResult.exn m →
      (set_fact data bset).1 = PyVal.dict [("error", PyVal.str m)] ∧ m ≠ "") ∧
    (∀ kvs, bget = BackendResult.ok (PyVal.dict kvs) →
      get_fact fkey bget = PyVal.dict [("value", pyDictGet kvs "value" PyVal.none)]) ∧
    (∀ m, bget = BackendResult.exn m →
      get_fact fkey bget = PyVal.dict [("error", PyVal.str m)] ∧ m ≠ "") := by
  refine ⟨fun b hb => ?_, fun m hm => ?_, fun kvs hkvs => ?_, fun m hm => ?_⟩
  · subst hb
    simp [set_fact, hk, hv]
  · refine ⟨?_, hne m hm⟩
    subst hm
    simp [set_fact, hk, hv]
  · subst hkvs
    rfl
  · exact ⟨by subst hm; rfl, hne2 m hm⟩

/-- Witness for C4: a valid body against a succeeding backend returns the
ok status, and an unreachable backend yields the in-band error. -/
theorem fact_endpoints_report_in_band_witness :
    set_fact [("key", PyVal.str "k"), ("value", PyVal.int 1)] (BackendResult.ok PyVal.none)
        = (PyVal.dict [("status", PyVal.str "ok")], true) ∧
    get_fact "k" (BackendResult.exn "connection refused")
        = (PyVal.dict [("error", PyVal.str "connection refused")]) :=
  ⟨(fact_endpoints_report_in_band [("key", PyVal.str "k"), ("value", PyVal.int 1)] "k"
      (BackendResult.ok PyVal.none) (BackendResult.exn "connection refused")
      (by decide) (by decide)
      (fun m h => nomatch h)
      (fun m h => by cases h; decide)).1 PyVal.none rfl,
   ((fact_endpoints_report_in_band [("key", PyVal.str "k"), ("value", PyVal.int 1)] "k"
      (BackendResult.ok PyVal.none) (BackendResult.exn "connection refused")
      (by decide) (by decide)
      (fun m h => nomatch h)
      (fun m h => by cases h; decide)).2.2.2 "connection refused" rfl).1⟩

/-- Claim C6: on a successful backend exchange whose body is a JSON
object, `get_fact` returns the body's `value` field, and `null` when that
field is absent. -/
theorem get_fact_value_field (fkey : String) (kvs : List (String × PyVal)) :
    get_fact fkey (BackendResult.ok (PyVal.dict kvs))
        = PyVal.dict [("value", pyDictGet kvs "value" PyVal.none)] ∧
    ((∀ p ∈ kvs, p.1 ≠ "value") →
      get_fact fkey (BackendResult.ok (PyVal.dict kvs))
        = PyVal.dict [("value", PyVal.none)]) := by
  refine ⟨rfl, fun h => ?_⟩
  show PyVal.dict [("value", pyDictGet kvs "value" PyVal.none)] = _
  rw [pyDictGet_eq_default kvs "value" PyVal.none h]

/-- Witness for C6: a body without a `value` field yields `null`. -/
theorem get_fact_value_field_witness :
    get_fact "k" (BackendResult.ok (PyVal.dict [("x", PyVal.int 1)]))
      = PyVal.dict [("value", PyVal.none)] :=
  (get_fact_value_field "k" [("x", PyVal.int 1)]).2 (by decide)

/-- Claim C9: at startup, an unset `AGENT_ID` defaults to `"unknown"`, and
an absent or empty `AGENT_CONFIG` decodes to the empty dict, in which case
the context string defaults to `""` and the tool list to `[]`.  In the
embedding these values live in the fixed `AgentEnv` every endpoint call
receives, mirroring the module-level bindings the source never reassigns. -/
theorem startup_defaults (idVar cfgVar : Option String) (decode : String → PyVal) :
    (idVar = Option.none → agentIdOf idVar = "unknown") ∧
    ((cfgVar = Option.none ∨ cfgVar = Option.some "") →
      agentConfigOf cfgVar decode = PyVal.dict [] ∧
      agent_context (PyVal.dict []) = PyVal.str "" ∧
      agent_tools (PyVal.dict []) = PyVal.list []) := by
  refine ⟨fun h => by rw [h]; rfl, fun h => ?_⟩
  rcases h with h | h <;> rw [h] <;> exact ⟨rfl, rfl, rfl⟩

/-- Witness for C9: both defaults at concrete environment values. -/
theorem startup_defaults_witness :
    agentIdOf Option.none = "unknown" ∧
    agentConfigOf (Option.some "") (fun _ => PyVal.none) = PyVal.dict [] :=
  ⟨(startup_defaults Option.none (Option.some "") (fun _ => PyVal.none)).1 rfl,
   ((startup_defaults Option.none (Option.some "") (fun _ => PyVal.none)).2 (Or.inr rfl)).1⟩

/-- Claim C5: with configuration `systemPrompt = "Be helpful"` and tools
`[{name: "search"}]`, the agent record produced for message `"hi"` has
content exactly `"Echo: hi\nContext: Be helpful\nTools: search"`, for every
store state, agent identity and clock readings. -/
theorem echo_content_scenario (aid : String) (st : Store) (t1 t2 : Int) :
    ∃ ts mem,
      (message_endpoint
        ⟨aid, PyVal.dict [("systemPrompt", PyVal.str "Be helpful"),
                          ("tools", PyVal.list [PyVal.dict [("name", PyVal.str "search")]])]⟩
        [("message", PyVal.str "hi")] t1 t2 st).1
      = PyVal.dict [("role", PyVal.str "agent"),
                    ("content", PyVal.str "Echo: hi\nContext: Be helpful\nTools: search"),
                    ("timestamp", ts), ("memory", mem)] := by
  exact ⟨PyVal.int t2, _, rfl⟩

/-- The Redis key `agent:{AGENT_ID}:messages` used by `message_endpoint`. -/
def logKey (env : AgentEnv) : String := "agent:" ++ env.agentId ++ ":messages"

/-- The user record pushed by `message_endpoint` for message `m` at time `t1`. -/
def userRecOf (m : String) (t1 : Int) : PyVal :=
  PyVal.dict [("role", PyVal.str "user"), ("content", PyVal.str m),
              ("timestamp", PyVal.int t1)]

/-- The content f-string of the mock agent response for message `m`. -/
def agentContent (env : AgentEnv) (m : String) : String :=
  "Echo: " ++ m ++ "\nContext: " ++ pyStr (agent_context env.config) ++ "\nTools: "
    ++ String.intercalate ", " (tool_names (agent_tools env.config))

/-- The agent record pushed and returned by `message_endpoint`, with
`memory` holding the supplied history snapshot. -/
def agentRecOf (env : AgentEnv) (m : String) (t2 : Int) (history : List PyVal) : PyVal :=
  PyVal.dict [("role", PyVal.str "agent"), ("content", PyVal.str (agentContent env m)),
              ("timestamp", PyVal.int t2), ("memory", PyVal.list history)]

/-- Claim C1: for a non-empty string message, one `message_endpoint` call
prepends exactly two records to the agent's log — the user record, then
the agent record — touching no other key; the returned agent record's
`memory` equals the most-recent-10 snapshot taken after the user push and
before the agent push, so it contains the user record and never the agent
record itself. -/
theorem message_endpoint_two_pushes (env : AgentEnv) (data : List (String × PyVal))
    (t1 t2 : Int) (st : Store) (m : String)
    (hmsg : pyDictGet data "message" PyVal.none = PyVal.str m) (hne : m ≠ "") :
    (message_endpoint env data t1 t2 st).1
      = agentRecOf env m t2 ((userRecOf m t1 :: st (logKey env)).take 10) ∧
    (message_endpoint env data t1 t2 st).2 (logKey env)
      = agentRecOf env m t2 ((userRecOf m t1 :: st (logKey env)).take 10)
        :: userRecOf m t1 :: st (logKey env) ∧
    (∀ k, k ≠ logKey env → (message_endpoint env data t1 t2 st).2 k = st k) ∧
    userRecOf m t1 ∈ (userRecOf m t1 :: st (logKey env)).take 10 ∧
    agentRecOf env m t2 ((userRecOf m t1 :: st (logKey env)).take 10)
      ∉ (userRecOf m t1 :: st (logKey env)).take 10 := by
  have htr : truthy (PyVal.str m) = true := by simp [truthy, hne]
  refine ⟨?_, ?_, ?_, ?_, ?_⟩
  · simp [message_endpoint, hmsg, htr, logKey, userRecOf, agentRecOf, agentContent,
      lrange10, lpush, pyStr]
  · simp [message_endpoint, hmsg, htr, logKey, userRecOf, agentRecOf, agentContent,
      lrange10, lpush, pyStr]
  · intro k hk
    rw [logKey] at hk
    simp [message_endpoint, hmsg, htr, lpush, lrange10, hk]
  · rw [show (10 : Nat) = 9 + 1 from rfl, List.take_succ_cons]
    exact List.mem_cons_self _ _
  · exact record_not_mem_own_memory _ _ _ _

/-- Witness for C1: against an empty store, message `"hi"` leaves exactly
the agent record atop the user record. -/
theorem message_endpoint_two_pushes_witness :
    (message_endpoint ⟨"a", PyVal.dict []⟩ [("message", PyVal.str "hi")] 0 0
        (fun _ => [])).2 (logKey ⟨"a", PyVal.dict []⟩)
      = agentRecOf ⟨"a", PyVal.dict []⟩ "hi" 0 ((userRecOf "hi" 0 :: []).take 10)
        :: userRecOf "hi" 0 :: [] :=
  (message_endpoint_two_pushes ⟨"a", PyVal.dict []⟩ [("message", PyVal.str "hi")]
    0 0 (fun _ => []) "hi" rfl (by decide)).2.1

/-- Claim C7: for every store state and key, the history read back is at
most 10 records long and is exactly a prefix (the most-recent-first
entries) of the stored log; the agent record returned by a successful
`message_endpoint` call carries precisely that snapshot, taken after the
user push, as its `memory`. -/
theorem memory_most_recent_ten (env : AgentEnv) (data : List (String × PyVal))
    (t1 t2 : Int) (st : Store) (m : String)
    (hmsg : pyDictGet data "message" PyVal.none = PyVal.str m) (hne : m ≠ "") :
    (∀ (stAny : Store) (k : String),
      (lrange10 stAny k).length ≤ 10 ∧ ∃ rest, stAny k = lrange10 stAny k ++ rest) ∧
    (message_endpoint env data t1 t2 st).1
      = agentRecOf env m t2
          (lrange10 (lpush st (logKey env) (userRecOf m t1)) (logKey env)) := by
  have htr : truthy (PyVal.str m) = true := by simp [truthy, hne]
  constructor
  · intro stAny k
    exact ⟨List.length_take_le 10 (stAny k),
      ⟨(stAny k).drop 10, (List.take_append_drop 10 (stAny k)).symm⟩⟩
  · simp [message_endpoint, hmsg, htr, logKey, userRecOf, agentRecOf, agentContent,
      lrange10, lpush, pyStr]

/-- Witness for C7: the read-back of an empty log has at most ten entries. -/
theorem memory_most_recent_ten_witness :
    (lrange10 (fun _ => []) "x").length ≤ 10 :=
  ((memory_most_recent_ten ⟨"a", PyVal.dict []⟩ [("message", PyVal.str "hi")] 0 0
    (fun _ => []) "hi" rfl (by decide)).1 (fun _ => []) "x").1

/-- Claim C8: assuming the wall clock does not run backwards across the two
reads (`t1 ≤ t2`), the two records one `message_endpoint` call inserts
carry non-decreasing timestamps in insertion order: the user record carries
`t1`, the agent record pushed after it carries `t2`. -/
theorem timestamps_nondecreasing (env : AgentEnv) (data : List (String × PyVal))
    (t1 t2 : Int) (st : Store) (m : String)
    (hmsg : pyDictGet data "message" PyVal.none = PyVal.str m) (hne : m ≠ "")
    (hclock : t1 ≤ t2) :
    ∃ userRec agentRec,
      (message_endpoint env data t1 t2 st).2 (logKey env)
        = agentRec :: userRec :: st (logKey env) ∧
      tsOf userRec = PyVal.int t1 ∧ tsOf agentRec = PyVal.int t2 ∧ t1 ≤ t2 := by
  have htr : truthy (PyVal.str m) = true := by simp [truthy, hne]
  refine ⟨userRecOf m t1,
    agentRecOf env m t2 ((userRecOf m t1 :: st (logKey env)).take 10), ?_, ?_, ?_, hclock⟩
  · simp [message_endpoint, hmsg, htr, logKey, userRecOf, agentRecOf, agentContent,
      lrange10, lpush, pyStr]
  · simp [tsOf, userRecOf, pyDictGet]
  · simp [tsOf, agentRecOf, pyDictGet]

/-- Witness for C8: at clock readings 0 then 1, the inserted records carry
timestamps 0 and 1 in insertion order. -/
theorem timestamps_nondecreasing_witness :
    ∃ userRec agentRec,
      (message_endpoint ⟨"a", PyVal.dict []⟩ [("message", PyVal.str "hi")] 0 1
          (fun _ => [])).2 (logKey ⟨"a", PyVal.dict []⟩)
        = agentRec :: userRec :: (fun _ => ([] : List PyVal)) (logKey ⟨"a", PyVal.dict []⟩) ∧
      tsOf userRec = PyVal.int 0 ∧ tsOf agentRec = PyVal.int 1 ∧ (0 : Int) ≤ 1 :=
  timestamps_nondecreasing ⟨"a", PyVal.dict []⟩ [("message", PyVal.str "hi")] 0 1
    (fun _ => []) "hi" rfl (by decide) (by norm_num)
